import Mathlib

/-!
Shallow embedding of the document-verification backend (egovauthenticator/api)
and proofs about its extraction / verification orchestration pipeline.

Source files embedded here:
  - src/src/controllers/user.controller.js  (the verification controller:
    verifyOCR, verifyPSA, getVerificationList, caches, in-flight dedup)
  - src/src/services/gemini.service.js      (QR short-circuit + extraction client)
  - src/unnamed/part_002                    (gemini service variant with the
    sex-disambiguation ensemble, runSexEnsemble)
  - src/unnamed/part_003 (second document)  (verification.service.js:
    getVerificationByUser, createVerification, verifyPSARecords, verifyVoters,
    deleteVerification)

External collaborators (the Gemini provider, the remote verifier, the cookie
issuer, the SQL pool, node-cache, crypto) are modelled at their interfaces:
provider calls become oracle functions from call descriptors to outcomes,
SQL queries become pure functions over Lean lists holding the table rows, and
thrown JS errors become the error side of an Except.
-/

namespace EGovApi

/- ====================================================================
   JS / SQL string primitives used throughout the embedded code.
   ==================================================================== -/

/-- ASCII whitespace as matched by the regexes and trim calls in the source
(the source runs on ASCII field content; the full JS whitespace class also
contains form feed and unicode spaces, which never occur in these flows). -/
def jsWS (c : Char) : Bool :=
  c == ' ' || c == '\t' || c == '\n' || c == '\r'

def jsTrimLeftChars (l : List Char) : List Char := l.dropWhile jsWS

/-- JS String.prototype.trim over a char list. -/
def jsTrimChars (l : List Char) : List Char :=
  ((jsTrimLeftChars l).reverse.dropWhile jsWS).reverse

/-- JS String.prototype.trim. -/
def jsTrim (s : String) : String := String.mk (jsTrimChars s.toList)

/-- JS toLowerCase / SQL LOWER, as a per-character map (the embedded flows
handle ASCII field content, where this agrees with both). -/
def strLower (s : String) : String := String.mk (s.toList.map Char.toLower)

/-- JS toUpperCase, as a per-character map. -/
def strUpper (s : String) : String := String.mk (s.toList.map Char.toUpper)

/-- SQL TRIM (removes only space characters at both ends). -/
def sqlTrim (s : String) : String :=
  String.mk (((s.toList.dropWhile (· == ' ')).reverse.dropWhile (· == ' ')).reverse)

/-- TRIM(LOWER(x)), the normalization applied on both sides of the
verification-service comparisons. -/
def sqlNorm (s : String) : String := sqlTrim (strLower s)

/-- Substring test over char lists (needle, haystack). -/
def charsHaveSub (pat : List Char) : List Char → Bool
  | [] => pat.isEmpty
  | c :: rest => pat.isPrefixOf (c :: rest) || charsHaveSub pat rest

/-- JS String.prototype.includes / SQL x ILIKE a pattern of the shape
percent-needle-percent (with both sides already lowercased where the source
lowercases them; ILIKE metacharacters never occur in these fields). -/
def strContains (hay pat : String) : Bool := charsHaveSub pat.toList hay.toList

/-- The error-classification regex used by both gemini service variants:
slash not found vertical-bar 404 vertical-bar unsupported slash, flag i.
True exactly when the message denotes a model-availability failure. -/
def isAvailabilityMsg (msg : String) : Bool :=
  let m := strLower msg
  strContains m "not found" || strContains m "404" || strContains m "unsupported"

/-- JS String(x).replace of every non-digit with nothing: keep digits only.
Used by normalizePCN (controller line 127) and the PSA QR id mapping. -/
def digitsOnly (s : String) : String := String.mk (s.toList.filter Char.isDigit)

/-- normalizePCN (user.controller.js lines 125-128): falsy input is returned
as is (empty string stays empty), otherwise digits are kept. -/
def normalizePCN (pcn : String) : String :=
  if pcn == "" then pcn else digitsOnly pcn

/-- The voters-precinct normalization in verifyOCR (controller line 548):
trim, then split on the space character and re-join with nothing, which
removes every space character. -/
def stripSpaces (s : String) : String :=
  String.mk ((jsTrim s).toList.filter (fun c => !(c == ' ')))

theorem dropWhile_length_le (p : Char → Bool) (l : List Char) :
    (l.dropWhile p).length ≤ l.length := by
  induction l with
  | nil => simp
  | cons c rest ih =>
      by_cases h : p c
      · simp only [List.dropWhile_cons, h, if_true]
        exact Nat.le_succ_of_le ih
      · simp [List.dropWhile_cons, h]

/-- First regex of normalizePOB (gemini.service.js line 155): every comma
followed by a possibly empty whitespace run becomes comma-space. -/
def replCommaWs (l : List Char) : List Char :=
  match l with
  | [] => []
  | c :: rest =>
      if c == ',' then ',' :: ' ' :: replCommaWs (rest.dropWhile jsWS)
      else c :: replCommaWs rest
termination_by l.length
decreasing_by
  · exact Nat.lt_succ_of_le (dropWhile_length_le _ _)
  · simp

/-- Second regex of normalizePOB: every run of two or more whitespace chars
becomes a single space; an isolated whitespace char is kept verbatim. -/
def collapseWs (l : List Char) : List Char :=
  match l with
  | [] => []
  | c :: rest =>
      if jsWS c then
        if (rest.takeWhile jsWS).isEmpty then c :: collapseWs rest
        else ' ' :: collapseWs (rest.dropWhile jsWS)
      else c :: collapseWs rest
termination_by l.length
decreasing_by
  · simp
  · exact Nat.lt_succ_of_le (dropWhile_length_le _ _)
  · simp

/-- normalizePOB (gemini.service.js lines 153-156). -/
def normalizePOB (pob : String) : String :=
  if pob == "" then ""
  else jsTrim (String.mk (collapseWs (replCommaWs pob.toList)))

/-- Coercion String(x or empty) applied to an optional JSON field: an absent
field and an empty string both render as the empty string. -/
def orEmpty (o : Option String) : String := o.getD ""

/-- JS truthiness of an optional string field (absent and empty are falsy). -/
def truthyS (o : Option String) : Bool :=
  match o with
  | none => false
  | some s => s != ""

/-- path.extname(filename).toLowerCase() as used by mimeOf
(gemini.service.js lines 18-25): the suffix of the base name starting at its
last dot, empty when the base name has no dot or only a leading dot. -/
def extnameLower (filename : String) : String :=
  let base := (filename.toList.reverse.takeWhile (fun c => !(c == '/'))).reverse
  let rev := base.reverse
  let afterDot := rev.takeWhile (fun c => !(c == '.'))
  if afterDot.length == rev.length then ""
  else if base.length - 1 - afterDot.length == 0 then ""
  else String.mk ('.' :: afterDot.reverse.map Char.toLower)

/-- mimeOf (gemini.service.js lines 18-25). -/
def mimeOf (filename : String) : String :=
  let ext := extnameLower filename
  if ext == ".jpg" || ext == ".jpeg" then "image/jpeg"
  else if ext == ".png" then "image/png"
  else if ext == ".webp" then "image/webp"
  else if ext == ".gif" then "image/gif"
  else "application/octet-stream"

/- ====================================================================
   Canonical extraction output.

   The schema-constrained extraction (src/config/schema.js, extractionSchema)
   requires exactly these thirteen string keys; the PSA QR mapping
   (gemini.service.js mapPSAQRToExtraction) constructs the same shape.
   ==================================================================== -/

structure ExtractionResult where
  type : String
  id : String
  name : String
  firstName : String
  middleName : String
  lastName : String
  sex : String
  dateOfBirth : String
  placeOfBirth : String
  address : String
  precintNo : String
  votersIdNumber : String
  others : String
deriving DecidableEq, Repr

/- ====================================================================
   gemini.service.js (the QR short-circuit variant imported by the
   controller): provider boundary, QR validation and mapping, model
   rotation, strict-then-relaxed retry.
   ==================================================================== -/

/-- PREFERRED_MODELS (gemini.service.js lines 7-11, identical in
part_002 line 8). -/
def PREFERRED_MODELS : List String :=
  ["gemini-2.5-flash", "gemini-2.0-flash", "gemini-1.5-flash"]

/-- One raw provider response at the generateContent boundary, as consumed by
callWithSchema (gemini.service.js lines 86-110):
  - blocked: promptFeedback.blockReason present (assertNotBlocked throws);
  - content: a response whose parseResponseJSON result is the given optional
    parsed value, with the given finishReason;
  - transport: the call itself rejected (network error, unknown model, ...)
    with the given message. -/
inductive ProviderResponse (α : Type)
  | blocked (blockReason ratings : String)
  | content (parsed : Option α) (finishReason : String)
  | transport (msg : String)

/-- The error message thrown by assertNotBlocked
(gemini.service.js lines 77-83). -/
def blockedMsg (blockReason ratings : String) : String :=
  "Output blocked by safety (" ++ blockReason ++ "). Ratings: " ++ ratings

/-- callWithSchema (gemini.service.js lines 86-110): returns the parsed JSON,
or throws with the safety message, the no-valid-JSON message, or the
transport error message. -/
def callWithSchema {α : Type} (resp : ProviderResponse α) : Except String α :=
  match resp with
  | .blocked br rt => .error (blockedMsg br rt)
  | .content (some j) _ => .ok j
  | .content none fr =>
      .error ("Model did not return valid JSON (finishReason=" ++ fr ++ ").")
  | .transport msg => .error msg

theorem callWithSchema_blocked {α : Type} (br rt : String) :
    callWithSchema (α := α) (.blocked br rt) = .error (blockedMsg br rt) := rfl

/-- The sb sub-object of a PSA QR payload. Only the keys the validator and
the mapper read are modelled; none models an absent key (JSON.parse output
never holds undefined values). The sf key is neither validated nor mapped. -/
structure PSAQRSB where
  DOB : Option String
  PCN : Option String
  POB : Option String
  fn : Option String
  ln : Option String
  mn : Option String
  s : Option String
deriving DecidableEq

/-- A decoded QR JSON object, as far as isValidPSAQRJson and
mapPSAQRToExtraction inspect it. sb none models both an absent sb and a
non-object sb (either fails validation; a null sb passes the JS typeof check
but then fails every needed-key check, the same outcome as some of the
all-none record). -/
structure PSAQRCandidate where
  d : Option String
  i : Option String
  sb : Option PSAQRSB
deriving DecidableEq

/-- isValidPSAQRJson (gemini.service.js lines 144-152). -/
def isValidPSAQRJson (obj : PSAQRCandidate) : Bool :=
  truthyS obj.d && truthyS obj.i && obj.sb.isSome &&
  strUpper (orEmpty obj.i) == "PSA" &&
  (match obj.sb with
   | none => false
   | some sb =>
       sb.DOB.isSome && sb.PCN.isSome && sb.POB.isSome &&
       sb.fn.isSome && sb.ln.isSome && sb.mn.isSome && sb.s.isSome)

/-- mapPSAQRToExtraction (gemini.service.js lines 157-180). -/
def mapPSAQRToExtraction (obj : PSAQRCandidate) : ExtractionResult :=
  let sb := obj.sb.getD ⟨none, none, none, none, none, none, none⟩
  let firstName := strUpper (jsTrim (orEmpty sb.fn))
  let middleName := strUpper (jsTrim (orEmpty sb.mn))
  let lastName := strUpper (jsTrim (orEmpty sb.ln))
  let placeOfBirth := normalizePOB (orEmpty sb.POB)
  let fullName :=
    jsTrim (String.intercalate " "
      (([firstName, middleName, lastName]).filter (fun x => x != "")))
  { type := "PSA"
    id := digitsOnly (orEmpty sb.PCN)
    name := fullName
    firstName := firstName
    middleName := middleName
    lastName := lastName
    sex := jsTrim (orEmpty sb.s)
    dateOfBirth := jsTrim (orEmpty sb.DOB)
    placeOfBirth := placeOfBirth
    address := placeOfBirth
    precintNo := ""
    votersIdNumber := ""
    others := "" }

/-- The parsed QR-detection response body (QR_DETECT_SCHEMA): the found flag
and the optional structured qr object. qr none models an absent or empty qr
object (Object.keys length zero); the raw field never influences control
flow and is omitted. -/
structure QRRes where
  found : Bool
  qr : Option PSAQRCandidate
deriving DecidableEq

/-- The provider oracle for one extractWithGemini execution: the outcome of
the QR-detection call, the schema-constrained extraction call (attempt 1 of
tryExtract) and the schema-relaxed extraction call (attempt 2), per model id.
Each call happens at most once per execution, so a function of the model id
describes the run. -/
structure GemOracle where
  qr : String → ProviderResponse QRRes
  strict : String → ProviderResponse ExtractionResult
  relaxed : String → ProviderResponse ExtractionResult

/-- One outbound provider invocation, for instrumentation of which calls an
execution performs. -/
inductive CallTag
  | qrCall (modelId : String)
  | strictCall (modelId : String)
  | relaxedCall (modelId : String)
deriving DecidableEq

def CallTag.isQR : CallTag → Bool
  | .qrCall _ => true
  | _ => false

/-- Object.keys(qrRes.qr).length over the modelled keys: true when the
candidate object has at least one key. A candidate that validates always has
d, i and sb present, and a keyless candidate never validates, so restricting
to the modelled keys does not change any branch outcome. -/
def hasQRKeys (c : PSAQRCandidate) : Bool :=
  c.d.isSome || c.i.isSome || c.sb.isSome

/-- Pass 1 of extractWithGemini (gemini.service.js lines 237-258): walk the
model rotation; a successful QR-detect response either short-circuits (found
and non-empty qr object validating as PSA) or breaks to pass 2; an
availability error tries the next model; any other error breaks to pass 2.
Returns the short-circuit result, if any, plus the provider calls made. -/
def qrPassM (o : GemOracle) : List String → Option ExtractionResult × List CallTag
  | [] => (none, [])
  | m :: rest =>
      match callWithSchema (o.qr m) with
      | .ok qrRes =>
          if qrRes.found then
            match qrRes.qr with
            | some cand =>
                if hasQRKeys cand && isValidPSAQRJson cand then
                  (some (mapPSAQRToExtraction cand), [.qrCall m])
                else (none, [.qrCall m])
            | none => (none, [.qrCall m])
          else (none, [.qrCall m])
      | .error e =>
          if isAvailabilityMsg e then
            let r := qrPassM o rest
            (r.1, .qrCall m :: r.2)
          else (none, [.qrCall m])

/-- Pass 2 of extractWithGemini (gemini.service.js lines 261-297): per model,
tryExtract runs the schema-constrained attempt; on an availability error it
rethrows (the outer loop rotates to the next model); on any other error it
runs the relaxed attempt on the same model; the outer loop rotates on an
availability error from either attempt and otherwise propagates. Exhausting
the rotation throws the no-model error (line 297). -/
def extractPass2 (o : GemOracle) :
    List String → Except String ExtractionResult × List CallTag
  | [] =>
      (.error "No supported Gemini Flash model available for this API key/region.",
       [])
  | m :: rest =>
      match callWithSchema (o.strict m) with
      | .ok r => (.ok r, [.strictCall m])
      | .error e1 =>
          if isAvailabilityMsg e1 then
            let r := extractPass2 o rest
            (r.1, .strictCall m :: r.2)
          else
            match callWithSchema (o.relaxed m) with
            | .ok r => (.ok r, [.strictCall m, .relaxedCall m])
            | .error e2 =>
                if isAvailabilityMsg e2 then
                  let r := extractPass2 o rest
                  (r.1, .strictCall m :: .relaxedCall m :: r.2)
                else (.error e2, [.strictCall m, .relaxedCall m])

/-- extractWithGemini (gemini.service.js lines 218-298): geminiClient throws
when the api key is missing (line 14); otherwise pass 1 may short-circuit,
else pass 2 runs. The second component records every provider invocation in
order. -/
def extractWithGeminiM (apiKey : String) (o : GemOracle) :
    Except String ExtractionResult × List CallTag :=
  if apiKey == "" then (.error "GOOGLE_API_KEY is missing.", [])
  else
    match qrPassM o PREFERRED_MODELS with
    | (some r, log) => (.ok r, log)
    | (none, log) =>
        let r := extractPass2 o PREFERRED_MODELS
        (r.1, log ++ r.2)

/- ====================================================================
   part_002 (the gemini service variant with the sex ensemble):
   runSexEnsemble, lines 189-238.
   ==================================================================== -/

/-- The JSON object recovered by callSexOnce from a sex-stage response
(extractFirstJSONObject output): an optional sex field and an optional label
field, the only keys any stage reads. -/
structure SexParsed where
  sex : Option String
  label : Option String
deriving DecidableEq

/-- Outcome of one callSexOnce invocation (part_002 lines 168-187): either
the pair of the recovered JSON (none when no JSON could be extracted) and the
finish reason, or a thrown error with its message (safety block, transport
failure, unknown model, ...). -/
inductive SexCallOutcome
  | ok (parsed : Option SexParsed) (finishReason : String)
  | err (msg : String)

/-- Provider oracle for one runSexEnsemble execution: outcome per model id
and stage index (0 = prompt A with references, 1 = B, 2 = C label framing,
3 = D enum schema, 4 = E geometry). Each pair is called at most once. -/
structure SexOracle where
  call : String → Nat → SexCallOutcome

/-- The post translator of stage C (part_002 lines 196-201), applied as
st.post when present and the identity otherwise: the label string selects the
sex value, anything else (including absent JSON) yields null. -/
def stageTranslate (idx : Nat) (parsed : Option SexParsed) : Option SexParsed :=
  if idx == 2 then
    let label := jsTrim (orEmpty (parsed.bind SexParsed.label))
    if label == "1 Male" then some ⟨some "Male", none⟩
    else if label == "2 Female" then some ⟨some "Female", none⟩
    else none
  else parsed

/-- The stage loop of runSexEnsemble for one model (part_002 lines 206-236):
a definitive Male or Female returns; every other outcome reaches the next
stage. In the source, a truncated no-JSON outcome hits the explicit continue
(line 231), any other non-definitive success falls off the end of the loop
body, and a thrown error is caught and — whether or not it matches the
availability regex — also continues this same stage loop: the continue on
line 234 sits inside the for-of over stages, so despite its try-next-model
comment it advances to the next stage of the same model. -/
def runSexStages (o : SexOracle) (m : String) : List Nat → Option String
  | [] => none
  | i :: rest =>
      match o.call m i with
      | .ok parsed _fr =>
          match stageTranslate i parsed with
          | some obj =>
              let s := jsTrim (orEmpty obj.sex)
              if s == "Male" || s == "Female" then some s
              else runSexStages o m rest
          | none => runSexStages o m rest
      | .err _msg => runSexStages o m rest

/-- runSexEnsemble (part_002 lines 189-238): walk the model rotation, running
the five stages on each model; the first definitive answer wins; with none,
return the empty string (unknown). -/
def runSexEnsemble (o : SexOracle) : List String → String
  | [] => ""
  | m :: rest =>
      match runSexStages o m [0, 1, 2, 3, 4] with
      | some s => s
      | none => runSexEnsemble o rest

/- ====================================================================
   part_003, second document (verification.service.js): the reference-record
   queries and the per-user listing, modelled over Lean lists that stand for
   the SQL tables, with each WHERE clause translated literally.
   ==================================================================== -/

/-- A row of dbo.PSARecords, with the columns the queries touch. Dates are
kept as their canonical ISO rendering, so the SQL date-equality of
DateOfBirth with CAST(param AS DATE) is string equality of well-formed ISO
dates. -/
structure PSARecord where
  id : String
  firstName : String
  lastName : String
  sex : String
  dateOfBirth : String
deriving DecidableEq

/-- A row of dbo.VotersRecords. -/
structure VoterRecord where
  id : String
  precintNumber : String
  firstName : String
  lastName : String
deriving DecidableEq

/-- The WHERE clause of verifyPSARecords (part_003 lines 188-208), kept in
its source shape: a disjunction whose first arm checks first name, last name
(substring, trim- and case-insensitive) and date of birth, and whose second
arm repeats those three and adds the sex equality. -/
def psaWhere (fn ln s dob : String) (r : PSARecord) : Bool :=
  (strContains (sqlNorm r.firstName) (sqlNorm fn) &&
   strContains (sqlNorm r.lastName) (sqlNorm ln) &&
   r.dateOfBirth == dob)
  ||
  (strContains (sqlNorm r.firstName) (sqlNorm fn) &&
   strContains (sqlNorm r.lastName) (sqlNorm ln) &&
   r.dateOfBirth == dob &&
   sqlNorm r.sex == sqlNorm s)

/-- verifyPSARecords (part_003 lines 188-208): the first matching row, or
none. -/
def verifyPSARecords (db : List PSARecord) (fn ln s dob : String) :
    Option PSARecord :=
  db.find? (psaWhere fn ln s dob)

/-- The WHERE clause of verifyVoters (part_003 lines 210-220): trim- and
case-insensitive equality on precinct number, first name and last name. -/
def votersWhere (p fn ln : String) (r : VoterRecord) : Bool :=
  sqlNorm r.precintNumber == sqlNorm p &&
  sqlNorm r.firstName == sqlNorm fn &&
  sqlNorm r.lastName == sqlNorm ln

/-- verifyVoters (part_003 lines 210-220). -/
def verifyVoters (db : List VoterRecord) (p fn ln : String) :
    Option VoterRecord :=
  db.find? (votersWhere p fn ln)

/-- The Data jsonb payload of a Verification row, in the three shapes the
controller stores: the empty object of the ERROR paths, the spread of an
extraction result with its type key deleted (verifyOCR line 561), and the
object literal of the verifyPSA paths (whose precintNo is null and which has
no votersIdNumber or others key). -/
inductive Payload
  | empty
  | ocr (r : ExtractionResult)
  | philsys (id sex name address lastName firstName middleName
      dateOfBirth placeOfBirth : String)
deriving DecidableEq

/-- Data arrow-arrow of a key: none is SQL NULL (key absent or json null). -/
def dId : Payload → Option String
  | .empty => none
  | .ocr r => some r.id
  | .philsys id _ _ _ _ _ _ _ _ => some id

def dName : Payload → Option String
  | .empty => none
  | .ocr r => some r.name
  | .philsys _ _ name _ _ _ _ _ _ => some name

def dFirstName : Payload → Option String
  | .empty => none
  | .ocr r => some r.firstName
  | .philsys _ _ _ _ _ firstName _ _ _ => some firstName

def dMiddleName : Payload → Option String
  | .empty => none
  | .ocr r => some r.middleName
  | .philsys _ _ _ _ _ _ middleName _ _ => some middleName

def dLastName : Payload → Option String
  | .empty => none
  | .ocr r => some r.lastName
  | .philsys _ _ _ _ lastName _ _ _ _ => some lastName

def dAddress : Payload → Option String
  | .empty => none
  | .ocr r => some r.address
  | .philsys _ _ _ address _ _ _ _ _ => some address

def dPrecintNo : Payload → Option String
  | .empty => none
  | .ocr r => some r.precintNo
  | .philsys _ _ _ _ _ _ _ _ _ => none

def dVotersIdNumber : Payload → Option String
  | .empty => none
  | .ocr r => some r.votersIdNumber
  | .philsys _ _ _ _ _ _ _ _ _ => none

def dOthers : Payload → Option String
  | .empty => none
  | .ocr r => some r.others
  | .philsys _ _ _ _ _ _ _ _ _ => none

/-- IS NOT NULL AND not-equal-empty, the listed-payload test the listing
query applies to id, name, firstName and lastName. -/
def optNonEmpty (o : Option String) : Bool :=
  match o with
  | none => false
  | some s => s != ""

/-- A persisted row of dbo.Verification as the listing query sees it. -/
structure VRow where
  id : String
  vtype : String
  status : String
  timestamp : Nat
  data : Payload
  userId : String
  active : Bool
deriving DecidableEq

/-- LOWER(field) ILIKE percent-q-percent for a possibly NULL field with the
already lowercased, trimmed q: NULL never matches. -/
def fieldLike (f : Option String) (q1 : String) : Bool :=
  match f with
  | some s => strContains (strLower s) q1
  | none => false

/-- The free-text disjunction of the listing WHERE (part_003 lines 143-156),
with the id field tested twice as in the source. -/
def qMatch (q1 : String) (d : Payload) : Bool :=
  fieldLike (dName d) q1 || fieldLike (dFirstName d) q1 ||
  fieldLike (dMiddleName d) q1 || fieldLike (dLastName d) q1 ||
  fieldLike (dId d) q1 || fieldLike (dAddress d) q1 ||
  fieldLike (dPrecintNo d) q1 || fieldLike (dVotersIdNumber d) q1 ||
  fieldLike (dId d) q1 || fieldLike (dOthers d) q1

/-- The full WHERE clause of getVerificationByUser (part_003 lines 137-158):
owner, the four non-empty payload fields, the free-text filter, the type
filter (none models a NULL array parameter) and the Active flag. -/
def vWhere (q1 : String) (tf : Option (List String)) (uid : String)
    (v : VRow) : Bool :=
  v.userId == uid &&
  optNonEmpty (dId v.data) && optNonEmpty (dName v.data) &&
  optNonEmpty (dFirstName v.data) && optNonEmpty (dLastName v.data) &&
  (q1 == "" || qMatch q1 v.data) &&
  (match tf with | none => true | some ts => ts.contains v.vtype) &&
  v.active

/-- ORDER BY Timestamp DESC via insertion sort. -/
def insertTsDesc (v : VRow) : List VRow → List VRow
  | [] => [v]
  | w :: rest =>
      if w.timestamp ≤ v.timestamp then v :: w :: rest
      else w :: insertTsDesc v rest

def sortTsDesc : List VRow → List VRow
  | [] => []
  | v :: rest => insertTsDesc v (sortTsDesc rest)

/-- Result shape of getVerificationByUser: the window total and the page. -/
structure ListResult where
  total : Nat
  results : List VRow
deriving DecidableEq

/-- getVerificationByUser (part_003 lines 119-169): defaulted page size and
index, lowercased trimmed free text, the WHERE filter, timestamp-descending
order, LIMIT size OFFSET index times size, and the COUNT(*) OVER() total
read off the first returned row (zero when the page is empty). -/
def getVerificationByUser (q : String) (tf : Option (List String))
    (userId : String) (pageSize pageIndex : Option Nat) (table : List VRow) :
    ListResult :=
  let size := match pageSize with
    | some n => if 0 < n then n else 10
    | none => 10
  let index := match pageIndex with
    | some n => n
    | none => 0
  let q1 := jsTrim (strLower q)
  let matched := table.filter (vWhere q1 tf userId)
  let page := ((sortTsDesc matched).drop (index * size)).take size
  { total := if page.isEmpty then 0 else matched.length
    results := page }

/- ====================================================================
   user.controller.js (verification controller): verifyOCR and verifyPSA,
   the extraction cache and the in-flight deduplication.
   ==================================================================== -/

/-- A row inserted by createVerification (part_003 lines 171-186): type,
owner, Data payload and status. Persistence itself is an external
collaborator modelled as always succeeding; the embedding collects the rows
a handler run inserts. -/
structure VRecord where
  vtype : String
  userId : String
  data : Payload
  status : String
deriving DecidableEq

/-- The observable HTTP reply of a handler: status code, the success flag of
the JSON body, and the verification record carried in its data field when the
handler returns one. -/
structure Resp where
  status : Nat
  success : Bool
  data : Option VRecord
deriving DecidableEq

def exceptOk {ε α : Type} : Except ε α → Bool
  | .ok _ => true
  | .error _ => false

/-- Environment of one verifyOCR run: the outcome of each awaited external
step. A none user is a failed lookup; the two lookup fields hold the outcome
of the reference-record query for the branch that performs it (a DB error is
the error side). -/
structure OCREnv where
  userFound : Bool
  apiKey : Except String Unit
  extract : Except String ExtractionResult
  psaLookup : Except String (Option PSARecord)
  votersLookup : Except String (Option VoterRecord)

/-- verifyOCR (user.controller.js lines 480-581). Returns the created
verification rows in creation order and the HTTP reply. The catch block
(lines 573-580) creates an ERROR record with an empty payload only when the
type variable was already assigned, so a failure of getAPIKey or of the
extraction block — both before classification — reaches the catch with type
still undefined and creates nothing. -/
def runVerifyOCR (userId : String) (hasFile : Bool) (env : OCREnv) :
    List VRecord × Resp :=
  if !hasFile then ([], ⟨400, false, none⟩)
  else if !env.userFound then ([], ⟨400, false, none⟩)
  else
    match env.apiKey with
    | .error _ => ([], ⟨500, false, none⟩)
    | .ok _ =>
        match env.extract with
        | .error _ => ([], ⟨500, false, none⟩)
        | .ok result =>
            let docType := strLower result.type
            if strContains docType "certificate" && strContains docType "birth" then
              match env.psaLookup with
              | .error _ => ([⟨"PSA", userId, .empty, "ERROR"⟩], ⟨500, false, none⟩)
              | .ok recOpt =>
                  let st := match recOpt with
                    | some r => if r.id != "" then "AUTHENTIC" else "FAKE"
                    | none => "FAKE"
                  let v : VRecord := ⟨"PSA", userId, .ocr result, st⟩
                  ([v], if st == "AUTHENTIC" then ⟨200, true, some v⟩
                        else ⟨400, false, some v⟩)
            else if strContains docType "certification" && strContains docType "vote" then
              let result2 := { result with precintNo := stripSpaces result.precintNo }
              match env.votersLookup with
              | .error _ => ([⟨"VOTERS", userId, .empty, "ERROR"⟩], ⟨500, false, none⟩)
              | .ok vOpt =>
                  let st := match vOpt with
                    | some r => if r.id != "" then "AUTHENTIC" else "FAKE"
                    | none => "FAKE"
                  let v : VRecord := ⟨"VOTERS", userId, .ocr result2, st⟩
                  ([v], if st == "AUTHENTIC" then ⟨200, true, some v⟩
                        else ⟨400, false, some v⟩)
            else
              ([⟨"UNKNOWN", userId, .empty, "ERROR"⟩], ⟨500, false, none⟩)

/-- verifyOCR with the two reference-record lookups instantiated with the
embedded verification-service queries, applied — as on lines 538-543 and
550-554 — to the fields of the extraction result (with the precinct number
already normalized on the voters path). -/
def runVerifyOCRDb (userId : String) (hasFile : Bool) (userFound : Bool)
    (apiKey : Except String Unit) (extract : Except String ExtractionResult)
    (psaDb : List PSARecord) (votersDb : List VoterRecord) :
    List VRecord × Resp :=
  runVerifyOCR userId hasFile
    { userFound := userFound
      apiKey := apiKey
      extract := extract
      psaLookup := match extract with
        | .ok r => .ok (verifyPSARecords psaDb r.firstName r.lastName r.sex r.dateOfBirth)
        | .error _ => .ok none
      votersLookup := match extract with
        | .ok r => .ok (verifyVoters votersDb (stripSpaces r.precintNo) r.firstName r.lastName)
        | .error _ => .ok none }

/- ---------- verifyPSA (user.controller.js lines 314-478) ---------- -/

structure PSAReq where
  userId : String
  d : String
  dob : String
  pcn : String
  pob : String
  fn : String
  ln : String
  mn : String
  s : String
  sf : String
deriving DecidableEq

/-- The remote verifier response once awaited: HTTP status and the optional
message of its JSON body. fetch exposes ok as status between 200 and 299. -/
structure RemoteResp where
  status : Nat
  message : Option String
deriving DecidableEq

/-- Environment of one verifyPSA run: user lookup outcome, current clock,
the verifier-result cache (key and absolute expiry; the cached payload value
itself never influences the record or the reply of the handler), the cookie-grabber
outcome and the remote fetch outcome. -/
structure PSAEnv where
  userFound : Bool
  now : Nat
  verifyCache : List (String × Nat)
  cookie : Except String String
  remote : Except String RemoteResp

/-- getIfFresh (user.controller.js lines 110-118) on the verify cache: an
entry is fresh while now has not passed its expiry. -/
def freshHit (cacheL : List (String × Nat)) (k : String) (now : Nat) : Bool :=
  match cacheL.find? (fun e => e.1 == k) with
  | some e => decide (now ≤ e.2)
  | none => false

/-- toStableKey (user.controller.js lines 120-123) of the normalized verify
request: JSON.stringify with the sorted key list d, dob, fn, ln, mn, pcn,
pob, s, sf. The serialization format is modelled as a canonical pairing of
the nine fields; determinism and exact field dependence are what the
controller relies on. -/
def toStableKeyPSA (d dob pcn pob fn ln mn s sf : String) : String :=
  String.intercalate "&"
    ["d=" ++ d, "dob=" ++ dob, "fn=" ++ fn, "ln=" ++ ln, "mn=" ++ mn,
     "pcn=" ++ pcn, "pob=" ++ pob, "s=" ++ s, "sf=" ++ sf]

/-- The Data object literal persisted by every verifyPSA path that creates a
record (lines 362-373, 429-440, 456-467): identical on all three paths. -/
def philsysData (req : PSAReq) : Payload :=
  .philsys req.pcn req.s
    (req.fn ++ " " ++ (if req.mn != "" then req.mn ++ " " else "") ++ req.ln)
    req.pob req.ln req.fn req.mn req.dob req.pob

/-- verifyPSA (user.controller.js lines 314-478). The request fields arrive
as strings with the empty string for an absent key (both are falsy at the
validation on line 339). On every path that reaches the catch block with a
found user, the catch itself evaluates the try-scoped userId binding and
raises a ReferenceError before createVerification can run, so no ERROR
record is inserted and the wrapper replies 500; with no user found the
if-user guard skips the insert with the same 500 reply. -/
def runVerifyPSA (req : PSAReq) (env : PSAEnv) : List VRecord × Resp :=
  if !env.userFound then ([], ⟨400, false, none⟩)
  else if req.d == "" || req.dob == "" || req.pcn == "" || req.pob == "" ||
          req.fn == "" || req.ln == "" || req.mn == "" || req.s == "" then
    ([], ⟨500, false, none⟩)
  else
    let key := toStableKeyPSA req.d req.dob (normalizePCN req.pcn) req.pob
      req.fn req.ln req.mn req.s req.sf
    if freshHit env.verifyCache key env.now then
      let v : VRecord := ⟨"PHILSYS", req.userId, philsysData req, "AUTHENTIC"⟩
      ([v], ⟨200, true, some v⟩)
    else
      match env.cookie with
      | .error _ => ([], ⟨500, false, none⟩)
      | .ok _ =>
          match env.remote with
          | .error _ => ([], ⟨500, false, none⟩)
          | .ok rr =>
              if !(decide (200 ≤ rr.status) && decide (rr.status < 300)) then
                let v : VRecord := ⟨"PHILSYS", req.userId, philsysData req, "FAKE"⟩
                ([v], ⟨200, false, some v⟩)
              else
                let v : VRecord := ⟨"PHILSYS", req.userId, philsysData req, "AUTHENTIC"⟩
                ([v], ⟨200, true, some v⟩)

/- ---------- the extraction cache keyed by content hash ---------- -/

/-- crypto sha256 hex digest of the upload buffer (hashBuffer, controller
lines 99-101). The hash itself is an external primitive; it is modelled as
an injective rendering of the byte content, preserving what the controller
relies on: the digest is a function of the bytes alone. -/
def hashBuffer (buf : List Nat) : String := "sha256:" ++ toString buf

/-- The cache key of the extraction cache and the in-flight map
(controller line 507). -/
def cacheKeyOf (buf : List Nat) : String := "ocr:gemini:" ++ hashBuffer buf

/-- node-cache stdTTL 86400 seconds, in milliseconds of Date.now(). -/
def ocrTTLms : Nat := 86400 * 1000

/-- State of the ocrCache across requests, plus the number of extraction
calls issued, for the sequential (non-interleaved) view of the cached
extraction block. -/
structure CacheState where
  entries : List (String × ExtractionResult × Nat)
  calls : Nat
deriving DecidableEq

def lookupFresh (entries : List (String × ExtractionResult × Nat))
    (k : String) (now : Nat) : Option ExtractionResult :=
  match entries.find? (fun e => e.1 == k) with
  | some e => if now ≤ e.2.2 then some e.2.1 else none
  | none => none

/-- The cached Gemini extraction block of verifyOCR (controller lines
505-531) for sequential requests: on a fresh cache hit the stored result is
returned with no provider call; on a miss extractWithGemini runs on the
buffer with the mime type derived from the filename of this request, a success is
cached under the content-hash key, and a failure is not cached. The userId
of the surrounding request is never consulted by the block. -/
def cachedExtract (ext : List Nat → String → Except String ExtractionResult)
    (now : Nat) (userId filename : String) (buf : List Nat)
    (st : CacheState) : Except String ExtractionResult × CacheState :=
  let _ := userId
  let key := cacheKeyOf buf
  match lookupFresh st.entries key now with
  | some r => (.ok r, st)
  | none =>
      match ext buf (mimeOf filename) with
      | .ok out => (.ok out, ⟨(key, out, now + ocrTTLms) :: st.entries, st.calls + 1⟩)
      | .error e => (.error e, ⟨st.entries, st.calls + 1⟩)

/- ---------- the in-flight deduplication, with interleaving ---------- -/

/-- State of the dedup machinery for one content-hash key: the cached value
for the key if any, the requests awaiting the outstanding extraction call if
one is in flight, the number of extraction calls started, and the settled
requests with the outcome each received. -/
structure DedupState where
  cached : Option ExtractionResult
  waiters : Option (List Nat)
  calls : Nat
  completed : List (Nat × Except String ExtractionResult)

/-- Atomic events of the event-loop execution of the block on controller
lines 505-531, for requests sharing one content hash. An arrival runs the
synchronous segment from cache.get to either completing from cache, joining
the in-flight promise, or starting the extraction and registering the
promise (no await separates the inFlight.get from the inFlight.set, so the
segment is atomic). A settle runs the segment executed when the extraction
finishes: on success the IIFE caches the result before settling, the finally
callback deletes the in-flight entry, and every waiter resumes with the one
shared outcome. -/
inductive DedupEvent
  | arrive (rid : Nat)
  | settle (out : Except String ExtractionResult)

def dedupStep (st : DedupState) : DedupEvent → DedupState
  | .arrive i =>
      match st.cached with
      | some r => { st with completed := (i, .ok r) :: st.completed }
      | none =>
          match st.waiters with
          | some ws => { st with waiters := some (ws ++ [i]) }
          | none => { st with waiters := some [i], calls := st.calls + 1 }
  | .settle out =>
      match st.waiters with
      | none => st
      | some ws =>
          { cached := match out with
              | .ok r => some r
              | .error _ => st.cached
            waiters := none
            calls := st.calls
            completed := ws.map (fun i => (i, out)) ++ st.completed }

def dedupInit : DedupState := ⟨none, none, 0, []⟩

def dedupRun (tr : List DedupEvent) : DedupState :=
  tr.foldl dedupStep dedupInit

/- ====================================================================
   Claims about the extraction client (C5, C6, C7).
   ==================================================================== -/

/-- A sample extraction result used by concrete oracles. -/
def rC5res : ExtractionResult :=
  ⟨"PSA", "1", "N L", "N", "", "L", "Male", "2000-01-01", "P", "P", "", "", ""⟩

/-- Oracle for the C5 counterexample: the QR pass finds nothing, the strict
attempt on the first model is blocked by safety policy, and the relaxed
attempt on the same model succeeds. -/
def oC5 : GemOracle where
  qr := fun _ => .content (some ⟨false, none⟩) "STOP"
  strict := fun m =>
    if m == "gemini-2.5-flash" then .blocked "SAFETY" "n/a" else .transport "x"
  relaxed := fun m =>
    if m == "gemini-2.5-flash" then .content (some rC5res) "STOP" else .transport "x"

/-- C5 counterexample: with the strict attempt on gemini-2.5-flash blocked by
safety policy, extractWithGemini does not propagate the block: it retries the
same model with the relaxed (schema-disabled) prompt and returns that
result of that attempt, so a safety block is not fatal to the extraction call. -/
theorem extract_blocked_retried_cex :
    oC5.strict "gemini-2.5-flash" = ProviderResponse.blocked "SAFETY" "n/a" ∧
    (extractWithGeminiM "key" oC5).1 = .ok rC5res ∧
    CallTag.relaxedCall "gemini-2.5-flash" ∈ (extractWithGeminiM "key" oC5).2 := by
  refine ⟨rfl, rfl, ?_⟩
  decide

/-- C5 amended: a safety-blocked response on the strict (schema-constrained)
attempt is treated like every other non-availability error: the same model is
retried once with the relaxed prompt; if the relaxed attempt succeeds its
value is returned, and if it fails with a non-availability error that error
propagates immediately, with no rotation to the next model. -/
theorem tryExtract_blocked_then_relaxed (o : GemOracle) (m : String)
    (rest : List String) (br rt : String)
    (hb : o.strict m = .blocked br rt)
    (hna : isAvailabilityMsg (blockedMsg br rt) = false) :
    (∀ r, callWithSchema (o.relaxed m) = .ok r →
        extractPass2 o (m :: rest) =
          (.ok r, [.strictCall m, .relaxedCall m])) ∧
    (∀ e, callWithSchema (o.relaxed m) = .error e → isAvailabilityMsg e = false →
        extractPass2 o (m :: rest) =
          (.error e, [.strictCall m, .relaxedCall m])) := by
  constructor
  · intro r hr
    simp [extractPass2, hb, callWithSchema_blocked, hna, hr]
  · intro e he hena
    simp [extractPass2, hb, callWithSchema_blocked, hna, he, hena]

theorem tryExtract_blocked_then_relaxed_witness :
    (oC5.strict "gemini-2.5-flash" = ProviderResponse.blocked "SAFETY" "n/a" ∧
     isAvailabilityMsg (blockedMsg "SAFETY" "n/a") = false) ∧
    ((∀ r, callWithSchema (oC5.relaxed "gemini-2.5-flash") = .ok r →
        extractPass2 oC5
            ("gemini-2.5-flash" :: ["gemini-2.0-flash", "gemini-1.5-flash"]) =
          (.ok r, [.strictCall "gemini-2.5-flash", .relaxedCall "gemini-2.5-flash"])) ∧
     (∀ e, callWithSchema (oC5.relaxed "gemini-2.5-flash") = .error e →
        isAvailabilityMsg e = false →
        extractPass2 oC5
            ("gemini-2.5-flash" :: ["gemini-2.0-flash", "gemini-1.5-flash"]) =
          (.error e, [.strictCall "gemini-2.5-flash", .relaxedCall "gemini-2.5-flash"]))) :=
  ⟨⟨rfl, by decide⟩,
   tryExtract_blocked_then_relaxed oC5 "gemini-2.5-flash"
     ["gemini-2.0-flash", "gemini-1.5-flash"] "SAFETY" "n/a" rfl (by decide)⟩

/-- The QR pass reaches a model whose detect call returns found with a
candidate object that validates as a trusted PSA payload, after any number
of availability-failing models. -/
inductive QRHit (o : GemOracle) (cand : PSAQRCandidate) : List String → Prop
  | here (m : String) (rest : List String) (q : QRRes) :
      callWithSchema (o.qr m) = .ok q → q.found = true → q.qr = some cand →
      hasQRKeys cand = true → isValidPSAQRJson cand = true →
      QRHit o cand (m :: rest)
  | next (m : String) (rest : List String) (e : String) :
      callWithSchema (o.qr m) = .error e → isAvailabilityMsg e = true →
      QRHit o cand rest → QRHit o cand (m :: rest)

theorem qrPassM_hit (o : GemOracle) (cand : PSAQRCandidate) (ms : List String)
    (h : QRHit o cand ms) :
    (qrPassM o ms).1 = some (mapPSAQRToExtraction cand) ∧
    ∀ t ∈ (qrPassM o ms).2, t.isQR = true := by
  induction h with
  | here m rest q h1 h2 h3 h4 h5 =>
      refine ⟨?_, ?_⟩ <;> simp [qrPassM, h1, h2, h3, h4, h5, CallTag.isQR]
  | next m rest e h1 h2 _h3 ih =>
      refine ⟨?_, ?_⟩
      · simp [qrPassM, h1, h2, ih.1]
      · intro t ht
        simp only [qrPassM, h1, h2, if_true] at ht
        rcases List.mem_cons.mp ht with h | h
        · simp [h, CallTag.isQR]
        · exact ih.2 t h

/-- C6: whenever the QR-detection pass reaches a model that reports a found
code whose structured object validates as a trusted PSA payload,
extractWithGemini returns exactly the deterministic mapping of that payload
(name components uppercased, PCN reduced to digits, place of birth
whitespace-normalized — mapPSAQRToExtraction) and every provider call of the
run belongs to the QR pass: the full-document extraction pass is never
invoked. -/
theorem extract_qr_short_circuit (apiKey : String) (o : GemOracle)
    (cand : PSAQRCandidate) (hk : apiKey ≠ "")
    (h : QRHit o cand PREFERRED_MODELS) :
    (extractWithGeminiM apiKey o).1 = .ok (mapPSAQRToExtraction cand) ∧
    ∀ t ∈ (extractWithGeminiM apiKey o).2, t.isQR = true := by
  obtain ⟨h1, h2⟩ := qrPassM_hit o cand PREFERRED_MODELS h
  have hk' : (apiKey == "") = false := by
    simp [hk]
  rcases hq : qrPassM o PREFERRED_MODELS with ⟨r1, log⟩
  rw [hq] at h1 h2
  simp only at h1
  subst h1
  constructor
  · simp [extractWithGeminiM, hk', hq]
  · intro t ht
    simp only [extractWithGeminiM, hk', Bool.false_eq_true, if_false, hq] at ht
    exact h2 t ht

/-- QR candidate of the C6 witness: the trusted PSA shape. -/
def qrCandW : PSAQRCandidate :=
  ⟨some "2020-01-01", some "PSA",
   some ⟨some "1990-01-01", some "1234-5678-9012-3456",
         some "Siaton,Negros Oriental", some "juan", some "cruz", some "de",
         some "Male"⟩⟩

/-- Oracle of the C6 witness: every QR-detect call finds the trusted
payload, and every full-extraction call would fail loudly if reached. -/
def oC6 : GemOracle where
  qr := fun _ => .content (some ⟨true, some qrCandW⟩) "STOP"
  strict := fun _ => .transport "full extraction must not run"
  relaxed := fun _ => .transport "full extraction must not run"

theorem extract_qr_short_circuit_witness :
    (("key" : String) ≠ "" ∧ QRHit oC6 qrCandW PREFERRED_MODELS) ∧
    ((extractWithGeminiM "key" oC6).1 = .ok (mapPSAQRToExtraction qrCandW) ∧
     ∀ t ∈ (extractWithGeminiM "key" oC6).2, t.isQR = true) := by
  have hhit : QRHit oC6 qrCandW PREFERRED_MODELS :=
    QRHit.here "gemini-2.5-flash" ["gemini-2.0-flash", "gemini-1.5-flash"]
      ⟨true, some qrCandW⟩ rfl rfl rfl (by decide) (by decide)
  exact ⟨⟨by decide, hhit⟩,
    extract_qr_short_circuit "key" oC6 qrCandW (by decide) hhit⟩

/-- The QR pass falls through: on the rotation walk it meets a model whose
detect call finds no code, finds one without a usable candidate, finds one
that does not validate, or throws a non-availability error — or it exhausts
the rotation on availability errors. -/
inductive QRFall (o : GemOracle) : List String → Prop
  | nil : QRFall o []
  | notFound (m : String) (rest : List String) (q : QRRes) :
      callWithSchema (o.qr m) = .ok q → q.found = false → QRFall o (m :: rest)
  | noCand (m : String) (rest : List String) (q : QRRes) :
      callWithSchema (o.qr m) = .ok q → q.found = true → q.qr = none →
      QRFall o (m :: rest)
  | badCand (m : String) (rest : List String) (q : QRRes) (cand : PSAQRCandidate) :
      callWithSchema (o.qr m) = .ok q → q.found = true → q.qr = some cand →
      (hasQRKeys cand && isValidPSAQRJson cand) = false → QRFall o (m :: rest)
  | errStop (m : String) (rest : List String) (e : String) :
      callWithSchema (o.qr m) = .error e → isAvailabilityMsg e = false →
      QRFall o (m :: rest)
  | errNext (m : String) (rest : List String) (e : String) :
      callWithSchema (o.qr m) = .error e → isAvailabilityMsg e = true →
      QRFall o rest → QRFall o (m :: rest)

theorem qrPassM_fall (o : GemOracle) (ms : List String) (h : QRFall o ms) :
    (qrPassM o ms).1 = none := by
  induction h with
  | nil => simp [qrPassM]
  | notFound m rest q h1 h2 => simp [qrPassM, h1, h2]
  | noCand m rest q h1 h2 h3 => simp [qrPassM, h1, h2, h3]
  | badCand m rest q cand h1 h2 h3 h4 => simp [qrPassM, h1, h2, h3, h4]
  | errStop m rest e h1 h2 => simp [qrPassM, h1, h2]
  | errNext m rest e h1 h2 _h3 ih => simp [qrPassM, h1, h2, ih]

/-- C7: whenever the QR short-circuit pass finds no code, finds one that does
not validate as the trusted schema, or errors in any way, extractWithGemini
proceeds to full-document extraction: its outcome is exactly the outcome of
the pass-2 extraction walk, and no error of the QR pass is raised. -/
theorem extract_qr_falls_through (apiKey : String) (o : GemOracle)
    (hk : apiKey ≠ "") (h : QRFall o PREFERRED_MODELS) :
    (extractWithGeminiM apiKey o).1 = (extractPass2 o PREFERRED_MODELS).1 := by
  have h1 := qrPassM_fall o PREFERRED_MODELS h
  have hk' : (apiKey == "") = false := by
    simp [hk]
  rcases hq : qrPassM o PREFERRED_MODELS with ⟨r1, log⟩
  rw [hq] at h1
  simp only at h1
  subst h1
  simp [extractWithGeminiM, hk', hq]

/-- Oracle of the C7 witness: the QR-detect call itself fails with a
non-availability error (for instance a safety block would produce such a
message) and the strict full extraction on the first model succeeds. -/
def oC7 : GemOracle where
  qr := fun _ => .blocked "SAFETY" "n/a"
  strict := fun _ => .content (some rC5res) "STOP"
  relaxed := fun _ => .transport "x"

theorem extract_qr_falls_through_witness :
    (("key" : String) ≠ "" ∧ QRFall oC7 PREFERRED_MODELS) ∧
    (extractWithGeminiM "key" oC7).1 = (extractPass2 oC7 PREFERRED_MODELS).1 := by
  have hfall : QRFall oC7 PREFERRED_MODELS :=
    QRFall.errStop "gemini-2.5-flash" ["gemini-2.0-flash", "gemini-1.5-flash"]
      (blockedMsg "SAFETY" "n/a") rfl (by decide)
  exact ⟨⟨by decide, hfall⟩, extract_qr_falls_through "key" oC7 (by decide) hfall⟩

/- ====================================================================
   Claim about the sex-disambiguation ensemble (C8).
   ==================================================================== -/

/-- Failing input for the claim that a provider-unavailable error advances to
the next model: stage 0 of the first model fails with a model-not-found
message, and stage 1 of that same first model answers Male; every other call
errs. -/
def sexOracleCex : SexOracle where
  call := fun m i =>
    if m == "gemini-2.5-flash" && i == 0 then
      .err "models/gemini-2.5-flash is not found for API version v1"
    else if m == "gemini-2.5-flash" && i == 1 then
      .ok (some ⟨some "Male", none⟩) "STOP"
    else .err "boom"

/-- C8: evaluation at the failing input. The stage-0 call on the first model
fails with a message the availability regex matches, yet the ensemble result
is the answer of stage 1 of that same first model: the catch-block continue
(part_002 line 234) targets the stage loop, so a provider-unavailable error
advances to the next stage of the same model instead of abandoning the model
as the try-next-model comment in the code (and the claim) state. -/
theorem runSexEnsemble_unavailable_does_not_advance_model :
    sexOracleCex.call "gemini-2.5-flash" 0 =
      SexCallOutcome.err "models/gemini-2.5-flash is not found for API version v1" ∧
    isAvailabilityMsg "models/gemini-2.5-flash is not found for API version v1" = true ∧
    runSexEnsemble sexOracleCex PREFERRED_MODELS = "Male" := by
  refine ⟨rfl, by decide, rfl⟩

/- ====================================================================
   Claim C1: record persistence across verifyOCR failure paths.
   ==================================================================== -/

/-- Environment of the C1 counterexample: the user lookup succeeds and the
extraction block fails. -/
def envC1 : OCREnv :=
  ⟨true, .ok (), .error "Gemini extraction failed", .ok none, .ok none⟩

/-- C1 counterexample: a verifyOCR attempt whose user lookup succeeds but
whose extraction fails persists no record at all — the catch block guards the
ERROR insert behind the type variable, still undefined on this path — so it
is not the case that every such attempt persists exactly one record. -/
theorem verifyOCR_extraction_failure_persists_nothing :
    envC1.userFound = true ∧
    (runVerifyOCR "user-1" true envC1).1.length ≠ 1 := by
  exact ⟨rfl, by decide⟩

/-- C1 amended: for a verifyOCR attempt whose user lookup succeeds, exactly
one record is persisted whenever the attempt reaches document classification
(extraction and the API-key lookup succeeded), including when classification
or the cross-check then fails — and on those failure paths every persisted
record has status ERROR and an empty payload; when the API-key lookup or the
extraction itself fails, nothing is persisted. -/
theorem runVerifyOCR_classified (userId : String) (u : Unit)
    (result : ExtractionResult) (pL : Except String (Option PSARecord))
    (vL : Except String (Option VoterRecord)) :
    (runVerifyOCR userId true ⟨true, .ok u, .ok result, pL, vL⟩).1.length = 1 ∧
    ((runVerifyOCR userId true ⟨true, .ok u, .ok result, pL, vL⟩).2.status = 500 →
        ∀ v ∈ (runVerifyOCR userId true ⟨true, .ok u, .ok result, pL, vL⟩).1,
          v.status = "ERROR" ∧ v.data = Payload.empty) := by
  by_cases h1 : (strContains (strLower result.type) "certificate" &&
      strContains (strLower result.type) "birth") = true
  · cases pL with
    | error e => simp [runVerifyOCR, h1]
    | ok recOpt =>
        cases recOpt with
        | none => simp [runVerifyOCR, h1]
        | some p =>
            by_cases hpid : (p.id != "") = true
            · simp [runVerifyOCR, h1, hpid]
            · simp [runVerifyOCR, h1, hpid]
  · by_cases h2 : (strContains (strLower result.type) "certification" &&
        strContains (strLower result.type) "vote") = true
    · cases vL with
      | error e => simp [runVerifyOCR, h1, h2]
      | ok vOpt =>
          cases vOpt with
          | none => simp [runVerifyOCR, h1, h2]
          | some p =>
              by_cases hpid : (p.id != "") = true
              · simp [runVerifyOCR, h1, h2, hpid]
              · simp [runVerifyOCR, h1, h2, hpid]
    · simp [runVerifyOCR, h1, h2]

/-- C1 amended: for a verifyOCR attempt whose user lookup succeeds, exactly
one record is persisted whenever the attempt reaches document classification
(extraction and the API-key lookup succeeded), including when classification
or the cross-check then fails — and on those failure paths every persisted
record has status ERROR and an empty payload; when the API-key lookup or the
extraction itself fails, nothing is persisted. -/
theorem verifyOCR_record_policy (userId : String) (env : OCREnv)
    (hu : env.userFound = true) :
    ((exceptOk env.apiKey && exceptOk env.extract) = true →
        (runVerifyOCR userId true env).1.length = 1) ∧
    ((exceptOk env.apiKey && exceptOk env.extract) = false →
        (runVerifyOCR userId true env).1 = []) ∧
    ((runVerifyOCR userId true env).2.status = 500 →
        ∀ v ∈ (runVerifyOCR userId true env).1,
          v.status = "ERROR" ∧ v.data = Payload.empty) := by
  rcases env with ⟨uF, aK, ex, pL, vL⟩
  simp only at hu
  subst hu
  cases aK with
  | error e => simp [runVerifyOCR, exceptOk]
  | ok u =>
      cases ex with
      | error e => simp [runVerifyOCR, exceptOk]
      | ok result =>
          obtain ⟨hlen, herr⟩ := runVerifyOCR_classified userId u result pL vL
          refine ⟨fun _ => hlen, fun hc => ?_, herr⟩
          simp [exceptOk] at hc

/-- Environment of the C1 witness: extraction succeeds with an unrecognized
document type, so the attempt fails after classification. -/
def envC1w : OCREnv :=
  ⟨true, .ok (),
   .ok ⟨"Drivers License", "", "", "", "", "", "", "", "", "", "", "", ""⟩,
   .ok none, .ok none⟩

theorem verifyOCR_record_policy_witness :
    envC1w.userFound = true ∧
    (((exceptOk envC1w.apiKey && exceptOk envC1w.extract) = true →
        (runVerifyOCR "user-1" true envC1w).1.length = 1) ∧
     ((exceptOk envC1w.apiKey && exceptOk envC1w.extract) = false →
        (runVerifyOCR "user-1" true envC1w).1 = []) ∧
     ((runVerifyOCR "user-1" true envC1w).2.status = 500 →
        ∀ v ∈ (runVerifyOCR "user-1" true envC1w).1,
          v.status = "ERROR" ∧ v.data = Payload.empty)) :=
  ⟨rfl, verifyOCR_record_policy "user-1" envC1w rfl⟩

/- ====================================================================
   Claim C3: the PSA cross-check of OCR-classified birth records.
   ==================================================================== -/

/-- The claim-side matching predicate (spec wording): a reference record
matching the extracted first name, last name, sex and date of birth, under
the comparison conventions the store itself uses for each field. -/
def specMatchesAllFour (p : PSARecord) (fn ln s dob : String) : Bool :=
  strContains (sqlNorm p.firstName) (sqlNorm fn) &&
  strContains (sqlNorm p.lastName) (sqlNorm ln) &&
  sqlNorm p.sex == sqlNorm s &&
  p.dateOfBirth == dob

/-- The comparison the deployed query actually decides: first name and last
name as trim- and case-insensitive substrings, plus date-of-birth equality.
Sex does not occur. -/
def psaThreeFieldMatch (p : PSARecord) (fn ln dob : String) : Bool :=
  strContains (sqlNorm p.firstName) (sqlNorm fn) &&
  strContains (sqlNorm p.lastName) (sqlNorm ln) &&
  p.dateOfBirth == dob

/-- Reference store of the C3 counterexample: one record agreeing on names
and birth date but with the opposite sex. -/
def dbC3 : List PSARecord := [⟨"rec-1", "Juan", "Cruz", "Female", "1990-01-01"⟩]

/-- Extraction result of the C3 counterexample. -/
def rC3 : ExtractionResult :=
  ⟨"Certificate of Live Birth", "123", "JUAN CRUZ", "JUAN", "", "CRUZ", "Male",
   "1990-01-01", "Manila", "Manila", "", "", ""⟩

/-- C3 counterexample: a PSA-classified extraction whose sex matches no
reference record still persists status AUTHENTIC — the OR of the deployed query
makes its sex conjunct redundant — although no record in the store matches
all four extracted fields, so AUTHENTIC is not equivalent to a four-field
match and a sex mismatch does not yield FAKE. -/
theorem ocr_psa_sex_ignored_cex :
    (runVerifyOCRDb "u1" true true (.ok ()) (.ok rC3) dbC3 []).1.map VRecord.status
      = ["AUTHENTIC"] ∧
    dbC3.all (fun p =>
      !(specMatchesAllFour p rC3.firstName rC3.lastName rC3.sex rC3.dateOfBirth))
      = true := by
  exact ⟨rfl, by decide⟩

theorem psaWhere_eq_three (fn ln s dob : String) (p : PSARecord) :
    psaWhere fn ln s dob p = psaThreeFieldMatch p fn ln dob := by
  unfold psaWhere psaThreeFieldMatch
  have hb : ∀ x d : Bool, (x || (x && d)) = x := by decide
  exact hb _ _

theorem find?_status_iff (db : List PSARecord) (p : PSARecord → Bool)
    (hid : ∀ x ∈ db, x.id ≠ "") :
    ((match db.find? p with
      | some r => if r.id != "" then "AUTHENTIC" else "FAKE"
      | none => "FAKE") = "AUTHENTIC") ↔ ∃ x ∈ db, p x = true := by
  cases hf : db.find? p with
  | none =>
      have hnone : ¬∃ x ∈ db, p x = true := by
        intro hex
        have := List.find?_isSome.mpr hex
        rw [hf] at this
        simp at this
      simp only [hnone, iff_false]
      decide
  | some r =>
      have hmem : r ∈ db := List.mem_of_find?_eq_some hf
      have hpr : p r = true := List.find?_some hf
      have hrid : (r.id != "") = true := by
        have := hid r hmem
        simpa using this
      simp only [hrid, if_true, true_iff]
      exact ⟨r, hmem, hpr⟩

/-- C3 amended: for a PSA-classified extraction (document type mentioning
certificate and birth), when every stored record has a non-empty row id, the
persisted status is AUTHENTIC exactly when some reference record matches the
extracted first name and last name (as trim- and case-insensitive
substrings of the stored names) and the extracted date of birth; the
extracted sex plays no part, and otherwise the status is FAKE. -/
theorem ocr_psa_status_iff_three_fields (userId : String)
    (r : ExtractionResult) (db : List PSARecord)
    (hdoc : (strContains (strLower r.type) "certificate" &&
             strContains (strLower r.type) "birth") = true)
    (hid : ∀ p ∈ db, p.id ≠ "") :
    ((runVerifyOCRDb userId true true (.ok ()) (.ok r) db []).1.map VRecord.status
        = ["AUTHENTIC"]
      ↔ ∃ p ∈ db, psaThreeFieldMatch p r.firstName r.lastName r.dateOfBirth = true) ∧
    ((runVerifyOCRDb userId true true (.ok ()) (.ok r) db []).1.map VRecord.status
        = ["AUTHENTIC"] ∨
     (runVerifyOCRDb userId true true (.ok ()) (.ok r) db []).1.map VRecord.status
        = ["FAKE"]) := by
  have hfind : verifyPSARecords db r.firstName r.lastName r.sex r.dateOfBirth =
      db.find? (fun p => psaThreeFieldMatch p r.firstName r.lastName r.dateOfBirth) := by
    unfold verifyPSARecords
    congr 1
    funext p
    exact psaWhere_eq_three _ _ _ _ p
  simp only [runVerifyOCRDb, runVerifyOCR, Bool.not_true, Bool.false_eq_true, if_false,
    hdoc, if_true, hfind]
  have hne : ¬("FAKE" = "AUTHENTIC") := by decide
  constructor
  · rw [← find?_status_iff db _ hid]
    cases hf : db.find? (fun p => psaThreeFieldMatch p r.firstName r.lastName r.dateOfBirth) with
    | none => simp [hne]
    | some p =>
        by_cases hpid : p.id != ""
        · simp [hpid]
        · simp [hpid, hne]
  · cases hf : db.find? (fun p => psaThreeFieldMatch p r.firstName r.lastName r.dateOfBirth) with
    | none => simp
    | some p =>
        by_cases hpid : p.id != ""
        · simp [hpid]
        · simp [hpid]

/-- Store and extraction of the C3 witness: a record matching on the three
consulted fields. -/
def dbC3w : List PSARecord := [⟨"rec-7", "Juan", "Cruz", "Male", "1990-01-01"⟩]

theorem ocr_psa_status_iff_three_fields_witness :
    ((strContains (strLower rC3.type) "certificate" &&
      strContains (strLower rC3.type) "birth") = true ∧
     (∀ p ∈ dbC3w, p.id ≠ "")) ∧
    (((runVerifyOCRDb "u1" true true (.ok ()) (.ok rC3) dbC3w []).1.map VRecord.status
        = ["AUTHENTIC"]
      ↔ ∃ p ∈ dbC3w,
          psaThreeFieldMatch p rC3.firstName rC3.lastName rC3.dateOfBirth = true) ∧
     ((runVerifyOCRDb "u1" true true (.ok ()) (.ok rC3) dbC3w []).1.map VRecord.status
        = ["AUTHENTIC"] ∨
      (runVerifyOCRDb "u1" true true (.ok ()) (.ok rC3) dbC3w []).1.map VRecord.status
        = ["FAKE"])) :=
  ⟨⟨by decide, by decide⟩,
   ocr_psa_status_iff_three_fields "u1" rC3 dbC3w (by decide) (by decide)⟩

/- ====================================================================
   Claim C4: a non-2xx remote verdict is a domain FAKE, not an error.
   ==================================================================== -/

/-- C4: whenever a verifyPSA call with a found user and complete fields
misses the verdict cache, obtains a session cookie, and receives a non-2xx
response from the remote verifier, the handler persists exactly one record
with type PHILSYS and status FAKE, returns it in a 200 reply, and raises no
error. -/
theorem verifyPSA_non2xx_persists_fake (req : PSAReq) (env : PSAEnv)
    (rr : RemoteResp)
    (hu : env.userFound = true)
    (hfields : (req.d == "" || req.dob == "" || req.pcn == "" || req.pob == "" ||
                req.fn == "" || req.ln == "" || req.mn == "" || req.s == "") = false)
    (hmiss : freshHit env.verifyCache
        (toStableKeyPSA req.d req.dob (normalizePCN req.pcn) req.pob
          req.fn req.ln req.mn req.s req.sf) env.now = false)
    (hck : exceptOk env.cookie = true)
    (hremote : env.remote = .ok rr)
    (h2xx : (decide (200 ≤ rr.status) && decide (rr.status < 300)) = false) :
    runVerifyPSA req env =
      ([⟨"PHILSYS", req.userId, philsysData req, "FAKE"⟩],
       ⟨200, false, some ⟨"PHILSYS", req.userId, philsysData req, "FAKE"⟩⟩) := by
  cases hc : env.cookie with
  | error e => rw [hc] at hck; simp [exceptOk] at hck
  | ok c =>
      simp [runVerifyPSA, hu, hfields, hmiss, hc, hremote, h2xx]

/-- Concrete environment of the C4 witness: remote verifier replies 403. -/
def envC4 : PSAEnv :=
  ⟨true, 0, [], .ok "tok-abc", .ok ⟨403, some "Forbidden"⟩⟩

/-- Concrete request of the C4 witness. -/
def reqC4 : PSAReq :=
  ⟨"user-1", "2020-01-01", "1990-01-01", "1234-5678-9012-3456",
   "Siaton, Negros Oriental", "JUAN", "CRUZ", "DE", "Male", ""⟩

theorem verifyPSA_non2xx_persists_fake_witness :
    (envC4.userFound = true ∧
     (reqC4.d == "" || reqC4.dob == "" || reqC4.pcn == "" || reqC4.pob == "" ||
      reqC4.fn == "" || reqC4.ln == "" || reqC4.mn == "" || reqC4.s == "") = false ∧
     freshHit envC4.verifyCache
       (toStableKeyPSA reqC4.d reqC4.dob (normalizePCN reqC4.pcn) reqC4.pob
         reqC4.fn reqC4.ln reqC4.mn reqC4.s reqC4.sf) envC4.now = false ∧
     exceptOk envC4.cookie = true ∧
     envC4.remote = .ok ⟨403, some "Forbidden"⟩ ∧
     (decide (200 ≤ (403 : Nat)) && decide ((403 : Nat) < 300)) = false) ∧
    runVerifyPSA reqC4 envC4 =
      ([⟨"PHILSYS", reqC4.userId, philsysData reqC4, "FAKE"⟩],
       ⟨200, false, some ⟨"PHILSYS", reqC4.userId, philsysData reqC4, "FAKE"⟩⟩) :=
  ⟨⟨rfl, by decide, by decide, rfl, rfl, by decide⟩,
   verifyPSA_non2xx_persists_fake reqC4 envC4 ⟨403, some "Forbidden"⟩
     rfl (by decide) (by decide) rfl rfl (by decide)⟩

/- ====================================================================
   Claim C9: the extraction cache is keyed by content hash only.
   ==================================================================== -/

/-- C9: for two sequential verifyOCR extractions over byte-identical buffers
within the cache TTL, the first call (any user, any filename) extracts with
the mime type of its own filename and caches the result under the
content-hash key; the second call — for any other user and any other
filename — is served that exact cached result with no further provider
invocation. -/
theorem ocrCache_keyed_by_bytes_only
    (ext : List Nat → String → Except String ExtractionResult)
    (u1 u2 f1 f2 : String) (b : List Nat) (t1 t2 : Nat) (r : ExtractionResult)
    (hok : ext b (mimeOf f1) = .ok r) (hle : t2 ≤ t1 + ocrTTLms) :
    (cachedExtract ext t1 u1 f1 b ⟨[], 0⟩).1 = .ok r ∧
    (cachedExtract ext t2 u2 f2 b (cachedExtract ext t1 u1 f1 b ⟨[], 0⟩).2).1
      = .ok r ∧
    (cachedExtract ext t2 u2 f2 b (cachedExtract ext t1 u1 f1 b ⟨[], 0⟩).2).2.calls
      = 1 := by
  have hfirst : cachedExtract ext t1 u1 f1 b ⟨[], 0⟩ =
      (.ok r, ⟨[(cacheKeyOf b, r, t1 + ocrTTLms)], 1⟩) := by
    simp [cachedExtract, lookupFresh, hok]
  refine ⟨by rw [hfirst], ?_, ?_⟩ <;>
    rw [hfirst] <;>
    simp [cachedExtract, lookupFresh, hle]

theorem ocrCache_keyed_by_bytes_only_witness :
    ((fun (_ : List Nat) (_ : String) =>
        (.ok rC5res : Except String ExtractionResult)) [7, 7, 7] (mimeOf "a.png")
        = .ok rC5res ∧
     (500 : Nat) ≤ 0 + ocrTTLms) ∧
    ((cachedExtract (fun _ _ => .ok rC5res) 0 "alice" "a.png" [7, 7, 7] ⟨[], 0⟩).1
        = .ok rC5res ∧
     (cachedExtract (fun _ _ => .ok rC5res) 500 "bob" "b.jpg" [7, 7, 7]
        (cachedExtract (fun _ _ => .ok rC5res) 0 "alice" "a.png" [7, 7, 7] ⟨[], 0⟩).2).1
        = .ok rC5res ∧
     (cachedExtract (fun _ _ => .ok rC5res) 500 "bob" "b.jpg" [7, 7, 7]
        (cachedExtract (fun _ _ => .ok rC5res) 0 "alice" "a.png" [7, 7, 7] ⟨[], 0⟩).2).2.calls
        = 1) :=
  ⟨⟨rfl, by decide⟩,
   ocrCache_keyed_by_bytes_only (fun _ _ => .ok rC5res) "alice" "bob" "a.png" "b.jpg"
     [7, 7, 7] 0 500 rC5res rfl (by decide)⟩

/- ====================================================================
   Claim C2: in-flight deduplication of concurrent identical extractions.
   ==================================================================== -/

theorem dedup_arrivals_fold (ids : List Nat) (ws : List Nat) (c : Nat)
    (comp : List (Nat × Except String ExtractionResult)) :
    List.foldl dedupStep ⟨none, some ws, c, comp⟩ (ids.map DedupEvent.arrive) =
      ⟨none, some (ws ++ ids), c, comp⟩ := by
  induction ids generalizing ws with
  | nil => simp
  | cons i rest ih =>
      simp only [List.map_cons, List.foldl_cons, dedupStep]
      rw [ih (ws ++ [i])]
      simp

/-- C2: for any two or more verifyOCR requests with byte-identical images
interleaved before the shared extraction settles, the extraction provider is
started exactly once, every caller completes with the one shared outcome, and
the in-flight entry is removed at settlement whether the call succeeded or
failed; after a failed settlement nothing is cached, and a subsequent arrival
starts a fresh extraction instead of completing with the old failure. -/
theorem dedup_concurrent_single_call (ids : List Nat)
    (out : Except String ExtractionResult) (h2 : 2 ≤ ids.length) :
    (dedupRun (ids.map DedupEvent.arrive ++ [DedupEvent.settle out])).calls = 1 ∧
    (dedupRun (ids.map DedupEvent.arrive ++ [DedupEvent.settle out])).waiters
      = none ∧
    (∀ i ∈ ids,
      (i, out) ∈ (dedupRun (ids.map DedupEvent.arrive ++ [DedupEvent.settle out])).completed) ∧
    (∀ e, out = .error e → ∀ j,
      (dedupRun (ids.map DedupEvent.arrive ++ [DedupEvent.settle out])).cached = none ∧
      (dedupStep (dedupRun (ids.map DedupEvent.arrive ++ [DedupEvent.settle out]))
          (.arrive j)).calls = 2 ∧
      (dedupStep (dedupRun (ids.map DedupEvent.arrive ++ [DedupEvent.settle out]))
          (.arrive j)).completed =
        (dedupRun (ids.map DedupEvent.arrive ++ [DedupEvent.settle out])).completed) := by
  cases ids with
  | nil => simp at h2
  | cons i rest =>
      have htrace :
          dedupRun ((i :: rest).map DedupEvent.arrive ++ [DedupEvent.settle out]) =
            ⟨(match out with | .ok r => some r | .error _ => none), none, 1,
             (i :: rest).map (fun x => (x, out))⟩ := by
        unfold dedupRun
        rw [List.foldl_append]
        have h1 : List.foldl dedupStep dedupInit ((i :: rest).map DedupEvent.arrive) =
            ⟨none, some (i :: rest), 1, []⟩ := by
          simp only [List.map_cons, List.foldl_cons, dedupInit, dedupStep]
          rw [dedup_arrivals_fold rest [i] 1 []]
          simp
        rw [h1]
        simp only [List.foldl_cons, List.foldl_nil, dedupStep]
        cases out <;> simp
      rw [htrace]
      refine ⟨rfl, rfl, ?_, ?_⟩
      · intro x hx
        simp only
        exact List.mem_map.mpr ⟨x, hx, rfl⟩
      · intro e hout j
        subst hout
        simp [dedupStep]

theorem dedup_concurrent_single_call_witness :
    2 ≤ ([0, 1] : List Nat).length ∧
    ((dedupRun (([0, 1] : List Nat).map DedupEvent.arrive ++
        [DedupEvent.settle (.error "extraction failed")])).calls = 1 ∧
     (dedupRun (([0, 1] : List Nat).map DedupEvent.arrive ++
        [DedupEvent.settle (.error "extraction failed")])).waiters = none ∧
     (∀ i ∈ ([0, 1] : List Nat),
       (i, (.error "extraction failed" : Except String ExtractionResult)) ∈
         (dedupRun (([0, 1] : List Nat).map DedupEvent.arrive ++
            [DedupEvent.settle (.error "extraction failed")])).completed) ∧
     (∀ e, (.error "extraction failed" : Except String ExtractionResult) = .error e →
        ∀ j,
       (dedupRun (([0, 1] : List Nat).map DedupEvent.arrive ++
          [DedupEvent.settle (.error "extraction failed")])).cached = none ∧
       (dedupStep (dedupRun (([0, 1] : List Nat).map DedupEvent.arrive ++
            [DedupEvent.settle (.error "extraction failed")])) (.arrive j)).calls = 2 ∧
       (dedupStep (dedupRun (([0, 1] : List Nat).map DedupEvent.arrive ++
            [DedupEvent.settle (.error "extraction failed")])) (.arrive j)).completed =
         (dedupRun (([0, 1] : List Nat).map DedupEvent.arrive ++
            [DedupEvent.settle (.error "extraction failed")])).completed)) :=
  ⟨by decide,
   dedup_concurrent_single_call [0, 1] (.error "extraction failed") (by decide)⟩

/- ====================================================================
   Claim C10: the listing exposes only active rows with listed payloads.
   ==================================================================== -/

/-- The payload-and-active shape every listed row must have. -/
def listedShape (v : VRow) : Bool :=
  optNonEmpty (dId v.data) && optNonEmpty (dName v.data) &&
  optNonEmpty (dFirstName v.data) && optNonEmpty (dLastName v.data) &&
  v.active

theorem vWhere_listedShape (q1 : String) (tf : Option (List String))
    (uid : String) (v : VRow) (h : vWhere q1 tf uid v = true) :
    listedShape v = true := by
  unfold vWhere at h
  unfold listedShape
  simp only [Bool.and_eq_true] at h ⊢
  exact ⟨⟨⟨⟨h.1.1.1.1.1.1.2, h.1.1.1.1.1.2⟩, h.1.1.1.1.2⟩, h.1.1.1.2⟩, h.2⟩

theorem filter_of_filter_keep {α : Type} (p keep : α → Bool)
    (h : ∀ a, p a = true → keep a = true) (l : List α) :
    (l.filter keep).filter p = l.filter p := by
  induction l with
  | nil => rfl
  | cons x xs ih =>
      by_cases hx : p x = true
      · have hk := h x hx
        simp [List.filter_cons, hk, hx, ih]
      · have hx' : p x = false := by
          cases hpx : p x
          · rfl
          · exact absurd hpx hx
        by_cases hk : keep x = true
        · simp [List.filter_cons, hk, hx', ih]
        · have hk' : keep x = false := by
            cases hkx : keep x
            · rfl
            · exact absurd hkx hk
          simp [List.filter_cons, hk', hx', ih]

theorem mem_insertTsDesc (x v : VRow) (l : List VRow)
    (h : x ∈ insertTsDesc v l) : x = v ∨ x ∈ l := by
  induction l with
  | nil => simpa [insertTsDesc] using h
  | cons w rest ih =>
      unfold insertTsDesc at h
      by_cases hc : w.timestamp ≤ v.timestamp
      · simp only [hc, if_true] at h
        rcases List.mem_cons.mp h with h1 | h1
        · exact Or.inl h1
        · exact Or.inr h1
      · simp only [hc, if_false] at h
        rcases List.mem_cons.mp h with h1 | h1
        · exact Or.inr (h1 ▸ List.mem_cons_self w rest)
        · rcases ih h1 with h2 | h2
          · exact Or.inl h2
          · exact Or.inr (List.mem_cons_of_mem w h2)

theorem mem_sortTsDesc (x : VRow) (l : List VRow) (h : x ∈ sortTsDesc l) :
    x ∈ l := by
  induction l with
  | nil =>
      simp [sortTsDesc] at h
  | cons v rest ih =>
      unfold sortTsDesc at h
      rcases mem_insertTsDesc x v (sortTsDesc rest) h with h1 | h1
      · exact h1 ▸ List.mem_cons_self v rest
      · exact List.mem_cons_of_mem v (ih h1)

/-- C10: every row the listing returns has a payload with non-empty id, name,
firstName and lastName and an Active flag set — and consequently the rows
without that shape (every ERROR record with an empty payload, every
soft-deleted record) are invisible: deleting them from the table changes
neither the returned page nor the reported total. -/
theorem listing_only_listed_active (q : String) (tf : Option (List String))
    (uid : String) (ps pi : Option Nat) (table : List VRow) :
    (∀ v ∈ (getVerificationByUser q tf uid ps pi table).results,
        listedShape v = true) ∧
    getVerificationByUser q tf uid ps pi (table.filter listedShape) =
      getVerificationByUser q tf uid ps pi table := by
  constructor
  · intro v hv
    unfold getVerificationByUser at hv
    simp only at hv
    have hsorted : v ∈ sortTsDesc (table.filter (vWhere (jsTrim (strLower q)) tf uid)) :=
      List.mem_of_mem_drop (List.mem_of_mem_take hv)
    have hmem : v ∈ table.filter (vWhere (jsTrim (strLower q)) tf uid) :=
      mem_sortTsDesc _ _ hsorted
    have hw : vWhere (jsTrim (strLower q)) tf uid v = true :=
      (List.mem_filter.mp hmem).2
    exact vWhere_listedShape _ _ _ _ hw
  · simp only [getVerificationByUser]
    rw [filter_of_filter_keep (vWhere (jsTrim (strLower q)) tf uid) listedShape
      (vWhere_listedShape (jsTrim (strLower q)) tf uid) table]

end EGovApi
